import Mathlib

/-!
Verification of the LightRAG multi-tenant control plane
(`src/multiuser/app`): the process supervisor, port allocator, log
relay/rotation, watchdog and gateway router/forwarder.  Python code is
shallowly embedded as pure Lean functions; OS effects (bind probes,
spawns, clocks, downstream HTTP) are passed in as explicit oracles.
-/

namespace LightRAG

/-- Constant from `app/config/settings.py`. -/
def START_PORT_RANGE : Nat := 9000

/-- Constant from `app/config/settings.py`. -/
def STARTUP_GRACE_PERIOD : Nat := 60

/-! ### Association lists

Python `dict`s keyed by workspace name are embedded as association
lists with `alookup` (`d.get(k)`), `ainsert` (`d[k] = v`) and `aerase`
(`del d[k]`). -/

/-- Lookup in an association list, as Python `d.get(k)`. -/
def alookup {α : Type} (k : String) : List (String × α) → Option α
  | [] => none
  | (k', v) :: rest => if k' = k then some v else alookup k rest

/-- Removal from an association list, as Python `del d[k]`. -/
def aerase {α : Type} (k : String) : List (String × α) → List (String × α)
  | [] => []
  | p :: rest => if p.1 = k then aerase k rest else p :: aerase k rest

/-- Insertion/overwrite in an association list, as Python `d[k] = v`. -/
def ainsert {α : Type} (k : String) (v : α) (l : List (String × α)) : List (String × α) :=
  (k, v) :: aerase k l

/-- Configuration record `WorkspaceConfig` from
`app/features/workspaces/schemas.py`. -/
structure WorkspaceConfig where
  workspace : String
  api_key : String
  port : Nat
deriving DecidableEq, Repr

/-! ### Port allocator (`process_manager.py` lines 49-73)

`free : Nat → Bool` is the bind-probe oracle: `free p = true` means a
`socket.bind(("127.0.0.1", p))` at this instant succeeds
(`is_port_free`).  The module-level set `_assigned_ports` is threaded
explicitly as a `List Nat`. -/

/-- `is_port_free` (lines 53-61): a real bind-and-release probe on
loopback, answered by the oracle. -/
def is_port_free (free : Nat → Bool) (port : Nat) : Bool := free port

/-- Body of the `while port < 65535` loop of `find_available_port`
(lines 64-73), with fuel `65535 - port` so the recursion mirrors the
loop bound exactly.  Returns the chosen port together with the updated
`_assigned_ports`; `none` is the `RuntimeError("No free ports")`. -/
def findPortLoop (free : Nat → Bool) (assigned : List Nat) :
    Nat → Nat → Option (Nat × List Nat)
  | _, 0 => none
  | port, fuel + 1 =>
    if !(assigned.contains port) && is_port_free free port then
      some (port, port :: assigned)
    else
      findPortLoop free assigned (port + 1) fuel

/-- `find_available_port` (lines 64-73): scan upward from
`start_port`, skipping ports in `_assigned_ports` or not bindable;
the chosen port is added to `_assigned_ports` before being returned. -/
def find_available_port (free : Nat → Bool) (assigned : List Nat)
    (start_port : Nat) : Option (Nat × List Nat) :=
  findPortLoop free assigned start_port (65535 - start_port)

/-! ### Supervisor runtime state (`LightRAGManager`, lines 138-148)

A process handle records the pid and the `poll()` result (`none` while
the process is alive, `some code` after exit).  Log file handles are
numeric ids; handles that have been closed are collected in
`closedHandles`.  The module-level `_assigned_ports` set lives in the
same state record because it is mutated by `start_process`. -/

structure ProcHandle where
  pid : Nat
  exited : Option Int
deriving DecidableEq, Repr

structure ManagerState where
  processes : List (String × ProcHandle)
  configs : List (String × WorkspaceConfig)
  start_times : List (String × Nat)
  log_files : List (String × Nat)
  log_locks : List (String × Unit)
  log_paths : List (String × String)
  assignedPorts : List Nat
  closedHandles : List Nat
deriving DecidableEq, Repr

/-- The guard of the early return in `start_process` (line 194):
`config.workspace in self.processes and
self.processes[config.workspace].poll() is None`. -/
def proc_running (st : ManagerState) (w : String) : Bool :=
  match alookup w st.processes with
  | some h => h.exited.isNone
  | none => false

/-- Oracle bundle for one `start_process` call: the bind-probe results
at this instant, the wall clock, and the fresh pid / log handle / log
path produced by `Popen`, `open` and `get_log_path`.  Spawning itself
is modelled as succeeding (the `except` at line 259 only covers OS
spawn errors outside the embedding). -/
structure StartEnv where
  free : Nat → Bool
  now : Nat
  newPid : Nat
  newLogHandle : Nat
  logPath : String

/-- Outcome of `start_process`: the early return at line 195, the
propagated `RuntimeError` of `find_available_port`, or a successful
spawn on the resolved port. -/
inductive StartOutcome
  | alreadyRunning
  | noFreePorts
  | spawned (port : Nat)
deriving DecidableEq, Repr

structure StartResult where
  registry : List WorkspaceConfig
  state : ManagerState
  outcome : StartOutcome
deriving Repr

/-- `update_workspace_port` from
`app/features/workspaces/repository.py`, acting on the registry rows. -/
def update_workspace_port (registry : List WorkspaceConfig)
    (name : String) (port : Nat) : List WorkspaceConfig :=
  registry.map (fun w => if w.workspace = name then { w with port := port } else w)

/-- Port-resolution step of `start_process` (lines 197-213): reuse the
configured port when it is neither in `_assigned_ports` nor unbindable,
otherwise scan via `find_available_port` from `START_PORT_RANGE`. -/
def resolve_port (free : Nat → Bool) (assigned : List Nat) (cfgPort : Nat) :
    Option (Nat × List Nat) :=
  if !(assigned.contains cfgPort) && is_port_free free cfgPort then
    some (cfgPort, cfgPort :: assigned)
  else
    find_available_port free assigned START_PORT_RANGE

/-- `start_process` (lines 190-260).  When the scan reassigns the port,
the new port is persisted to the registry (`update_workspace_port`) and
the in-memory config object is replaced (line 213).  On success all six
per-workspace maps are populated and the relay thread is attached. -/
def start_process (env : StartEnv) (registry : List WorkspaceConfig)
    (st : ManagerState) (config : WorkspaceConfig) : StartResult :=
  if proc_running st config.workspace then
    ⟨registry, st, .alreadyRunning⟩
  else
    match resolve_port env.free st.assignedPorts config.port with
    | none => ⟨registry, st, .noFreePorts⟩
    | some (port, assigned') =>
      let registry' :=
        if port = config.port then registry
        else update_workspace_port registry config.workspace port
      let config' : WorkspaceConfig :=
        ⟨config.workspace, config.api_key, port⟩
      let st' : ManagerState :=
        { st with
          assignedPorts := assigned'
          processes := ainsert config.workspace ⟨env.newPid, none⟩ st.processes
          configs := ainsert config.workspace config' st.configs
          start_times := ainsert config.workspace env.now st.start_times
          log_files := ainsert config.workspace env.newLogHandle st.log_files
          log_paths := ainsert config.workspace env.logPath st.log_paths
          log_locks := ainsert config.workspace () st.log_locks }
      ⟨registry', st', .spawned port⟩

/-- `stop_process` (lines 298-349).  The whole body is guarded by
`if workspace in self.processes`; the process is terminated/killed
(OS side), the port is forcibly evicted (OS side), the log handle is
closed under the lock, and every per-workspace map entry is deleted.
`_assigned_ports` is never touched. -/
def stop_process (st : ManagerState) (workspace : String) : ManagerState :=
  if (alookup workspace st.processes).isSome then
    let st1 := { st with processes := aerase workspace st.processes }
    let st2 :=
      match alookup workspace st1.log_files with
      | some h =>
        { st1 with
          closedHandles := h :: st1.closedHandles
          log_files := aerase workspace st1.log_files }
      | none => st1
    { st2 with
      log_locks := aerase workspace st2.log_locks
      log_paths := aerase workspace st2.log_paths
      configs := aerase workspace st2.configs
      start_times := aerase workspace st2.start_times }
  else st

/-! ### Workspace creation (`create_workspace/service.py`) and the
registry-based `find_free_port` (`process_manager.py` lines 120-135) -/

/-- The `WorkspaceCreate` name validator from
`app/features/workspaces/schemas.py`: the name must match
`^[a-zA-Z0-9_]+$`. -/
def valid_workspace_name (s : String) : Bool :=
  s.length > 0 && s.toList.all (fun c => c.isAlphanum || c = '_')

/-- Loop body of `find_free_port` (lines 124-134): skip ports reserved
in the registry, probe-bind the rest, return the first success.  Fuel
is `65535 - port`, mirroring `while port < 65535`. -/
def findFreeLoop (bindFree : Nat → Bool) (reserved : List Nat) :
    Nat → Nat → Option Nat
  | _, 0 => none
  | port, fuel + 1 =>
    if reserved.contains port then findFreeLoop bindFree reserved (port + 1) fuel
    else if bindFree port then some port
    else findFreeLoop bindFree reserved (port + 1) fuel

/-- `find_free_port` (lines 120-135): the reserved set is the set of
ports of all registry rows; `none` is the `RuntimeError`. -/
def find_free_port (bindFree : Nat → Bool) (registry : List WorkspaceConfig)
    (start_port : Nat) : Option Nat :=
  findFreeLoop bindFree (registry.map (fun w => w.port)) start_port
    (65535 - start_port)

inductive CreateErr
  | invalidName
  | noFreePorts
deriving DecidableEq, Repr

/-- `create_workspace` (`create_workspace/service.py` lines 13-41):
validate the name, draw a fresh credential (`secrets.token_urlsafe`,
given as the oracle `freshKey`), allocate a port with
`find_free_port`, persist the new row (`add_workspace_to_db`) and
return the config. -/
def create_workspace (freshKey : String) (bindFree : Nat → Bool)
    (registry : List WorkspaceConfig) (name : String) :
    Except CreateErr (WorkspaceConfig × List WorkspaceConfig) :=
  if !valid_workspace_name name then .error .invalidName
  else
    match find_free_port bindFree registry START_PORT_RANGE with
    | none => .error .noFreePorts
    | some p =>
      let cfg : WorkspaceConfig := ⟨name, freshKey, p⟩
      .ok (cfg, registry ++ [cfg])

/-! ### Gateway routing (`app/features/gateway/service.py`) -/

/-- `RoutingResult` from `app/features/gateway/schemas.py`. -/
structure RoutingResult where
  workspace : String
  port : Nat
  api_key : String
  was_started_just_now : Bool
deriving DecidableEq, Repr

/-- Exceptions escaping the resolvers: `ValueError` (invalid name),
`LookupError` (unknown workspace / credential), and the propagated
`RuntimeError` of port exhaustion. -/
inductive RouteErr
  | invalidName
  | notFound
  | runtimeError
deriving DecidableEq, Repr

/-- Oracle bundle for one resolve call. -/
structure ResolveEnv where
  autoCreate : Bool
  freshKey : String
  bindFree : Nat → Bool
  startEnv : StartEnv

/-- `get_workspace_by_name` from the repository: a registry row lookup
by name. -/
def get_workspace_by_name (registry : List WorkspaceConfig)
    (name : String) : Option WorkspaceConfig :=
  registry.find? (fun w => w.workspace == name)

/-- `get_workspace_by_key` from the repository: a registry row lookup
by credential. -/
def get_workspace_by_key (registry : List WorkspaceConfig)
    (key : String) : Option WorkspaceConfig :=
  registry.find? (fun w => w.api_key == key)

/-- `resolve_workspace_no_auth` (`gateway/service.py` lines 38-93):
in-memory cache first (result built from `manager.configs`, default
`was_started_just_now = False`, no registry access); then the
registry, starting the worker when absent from `manager.processes`;
then auto-create.  Returns the routing result together with the
updated registry and manager state. -/
def resolve_workspace_no_auth (env : ResolveEnv)
    (registry : List WorkspaceConfig) (st : ManagerState) (name : String) :
    Except RouteErr (RoutingResult × List WorkspaceConfig × ManagerState) :=
  match alookup name st.configs with
  | some cfg => .ok (⟨cfg.workspace, cfg.port, cfg.api_key, false⟩, registry, st)
  | none =>
    match get_workspace_by_name registry name with
    | some cfg =>
      if (alookup cfg.workspace st.processes).isSome then
        let actual := (alookup name st.configs).getD cfg
        .ok (⟨actual.workspace, actual.port, actual.api_key, false⟩, registry, st)
      else
        let r := start_process env.startEnv registry st cfg
        match r.outcome with
        | .noFreePorts => .error .runtimeError
        | _ =>
          let actual := (alookup name r.state.configs).getD cfg
          .ok (⟨actual.workspace, actual.port, actual.api_key, true⟩,
               r.registry, r.state)
    | none =>
      if env.autoCreate then
        match create_workspace env.freshKey env.bindFree registry name with
        | .error .invalidName => .error .invalidName
        | .error .noFreePorts => .error .runtimeError
        | .ok (cfg, registry') =>
          let r := start_process env.startEnv registry' st cfg
          match r.outcome with
          | .noFreePorts => .error .runtimeError
          | _ =>
            let actual := (alookup name r.state.configs).getD cfg
            .ok (⟨actual.workspace, actual.port, actual.api_key, true⟩,
                 r.registry, r.state)
      else .error .notFound

/-- `resolve_workspace_with_auth` (`gateway/service.py` lines 96-136):
scan `manager.configs.values()` for a matching credential first, then
the registry by key. -/
def resolve_workspace_with_auth (env : ResolveEnv)
    (registry : List WorkspaceConfig) (st : ManagerState) (api_key : String) :
    Except RouteErr (RoutingResult × List WorkspaceConfig × ManagerState) :=
  match st.configs.find? (fun p => p.2.api_key == api_key) with
  | some p =>
    .ok (⟨p.2.workspace, p.2.port, p.2.api_key, false⟩, registry, st)
  | none =>
    match get_workspace_by_key registry api_key with
    | some cfg =>
      if (alookup cfg.workspace st.processes).isSome then
        let actual := (alookup cfg.workspace st.configs).getD cfg
        .ok (⟨actual.workspace, actual.port, actual.api_key, false⟩, registry, st)
      else
        let r := start_process env.startEnv registry st cfg
        match r.outcome with
        | .noFreePorts => .error .runtimeError
        | _ =>
          let actual := (alookup cfg.workspace r.state.configs).getD cfg
          .ok (⟨actual.workspace, actual.port, actual.api_key, true⟩,
               r.registry, r.state)
    | none => .error .notFound

/-- Mapping of routing exceptions to HTTP statuses in header
(no-auth) mode (`gateway/endpoint.py` lines 57-63): `ValueError` to
400, `LookupError` to 404; the `RuntimeError` of port exhaustion is
not caught there and surfaces as the framework 500. -/
def route_error_status_no_auth : RouteErr → Nat
  | .invalidName => 400
  | .notFound => 404
  | .runtimeError => 500

/-! ### Readiness gating (`gateway/service.py` lines 16-35 and
`gateway/endpoint.py` lines 69-76)

`wait_for_health` polls `GET /` on the worker port at 0.2 s intervals.
A poll is an oracle value: an HTTP response (any status, since the
code never inspects it), a connect-type failure
(`ConnectError`/`ConnectTimeout`), a `ReadTimeout`, or any other
exception (treated by the code as proof of reachability).  Time is in
milliseconds; the readiness timeout is 15000, each retry sleeps 200.
The model advances the clock by the sleep alone, a lower bound on real
elapsed time. -/

inductive ProbeOutcome
  | response (status : Nat)
  | connError
  | readTimeout
  | otherError (msg : String)
deriving DecidableEq, Repr

/-- True for the poll outcomes on which `wait_for_health` returns
ready: an actual HTTP response, or any exception that is not a
connect-type/read-timeout failure. -/
def counts_as_ready : ProbeOutcome → Bool
  | .response _ => true
  | .otherError _ => true
  | .connError => false
  | .readTimeout => false

/-- The `while True` loop of `wait_for_health` (lines 25-35):
`polls i` is the outcome of the i-th probe, `t` the elapsed time when
its failure is handled.  `.ok i` means ready after poll `i`; `.error ()`
is the raised timeout exception. -/
def wait_for_health (polls : Nat → ProbeOutcome) (timeout : Nat)
    (i t : Nat) : Except Unit Nat :=
  if counts_as_ready (polls i) then .ok i
  else if timeout < t then .error ()
  else wait_for_health polls timeout (i + 1) (t + 200)
termination_by timeout + 1 - t
decreasing_by omega

/-- Result of the readiness section of the gateway endpoint. -/
inductive GateStep
  | forward (port : Nat)
  | httpError (status : Nat)
deriving DecidableEq, Repr

/-- Readiness gating in `gateway` (`endpoint.py` lines 69-76): when
`was_started_just_now`, block on `wait_for_health(port, 15.0)`; any
exception from it becomes a 504 and the proxy section is never
reached; otherwise fall through to the proxy. -/
def gateway_readiness (wasStarted : Bool) (polls : Nat → ProbeOutcome)
    (port : Nat) : GateStep :=
  if wasStarted then
    match wait_for_health polls 15000 0 0 with
    | .ok _ => .forward port
    | .error _ => .httpError 504
  else .forward port

/-! ### Proxy failure taxonomy (`gateway/endpoint.py` lines 81-120) -/

/-- The fixed `request_timeout` of the proxy (line 91), in seconds. -/
def request_timeout : Nat := 60

/-- Behaviour of the downstream exchange as seen by the `except`
clauses: a streamed response, `httpx.ConnectError`,
`httpx.TimeoutException`, or any other exception with its message. -/
inductive DownstreamResult
  | streamed (status : Nat)
  | connectError
  | timeoutExc
  | otherExc (msg : String)
deriving DecidableEq, Repr

/-- Downstream environment to exchange outcome: an immediate refusal
raises `ConnectError`; a request lasting beyond the fixed 60 s
`request_timeout` raises `httpx.TimeoutException`. -/
def downstream_result (refused : Bool) (durationSecs : Nat)
    (otherExc : Option String) (appStatus : Nat) : DownstreamResult :=
  if refused then .connectError
  else if request_timeout < durationSecs then .timeoutExc
  else
    match otherExc with
    | some m => .otherExc m
    | none => .streamed appStatus

/-- Response to the caller: status plus detail string. -/
structure GResponse where
  status : Nat
  detail : String
deriving DecidableEq, Repr

/-- The proxy `try/except` of `gateway` (lines 81-120).  The tenant
credential `child_api_key` is in scope there (injected into the
downstream request headers at line 85) but the three failure responses
are built only from the workspace name and the exception message. -/
def gateway_proxy (target_workspace : String) (child_api_key : Option String)
    (r : DownstreamResult) : GResponse :=
  match r with
  | .streamed s => ⟨s, ""⟩
  | .connectError =>
    ⟨502, "Workspace " ++ target_workspace ++
          " connection failed immediately after startup. Please retry after 10 seconds."⟩
  | .timeoutExc =>
    ⟨504, "Gateway Timeout: The request took more than 60 seconds."⟩
  | .otherExc m => ⟨500, "Gateway Error: " ++ m⟩

/-! ### Watchdog tick exception flow (`process_manager.py` lines
356-409 and 416-431)

`check_health` iterates `self.processes.items()`.  For the claim about
exception propagation the awaited operations of one workspace are
abstracted into their outcomes: `exitCode` is `proc.poll()`,
`dbFetch` the outcome of `get_workspace_by_name` (which line 369 calls
outside any `try`), `probe` the outcome of the health `GET` (caught at
line 403), and `startAttempt` the outcome of a `start_process` invoked
for a restart (its port-scan `RuntimeError` is uncaught). -/

structure WsTick where
  ws : String
  exitCode : Option Int
  dbFetch : Except Unit (Option WorkspaceConfig)
  hasConfig : Bool
  uptime : Nat
  probe : Except Unit Nat
  startAttempt : Except Unit Unit

/-- Processing of one workspace inside the `check_health` loop
(lines 358-409).  `.error ()` means an exception escapes the loop
body. -/
def check_one (e : WsTick) : Except Unit Unit :=
  match e.exitCode with
  | some _ =>
    match e.dbFetch with
    | .error u => .error u
    | .ok (some _) => e.startAttempt
    | .ok none => .ok ()
  | none =>
    if !e.hasConfig then .ok ()
    else
      let healthFail :=
        match e.probe with
        | .ok s => s != 200
        | .error _ => true
      if healthFail then
        if e.uptime < STARTUP_GRACE_PERIOD then .ok ()
        else e.startAttempt
      else .ok ()

/-- One `check_health` tick over the tracked workspaces: returns the
names whose iteration completed, and the workspace at which an
uncaught exception aborted the loop, if any. -/
def check_health : List WsTick → List String × Option String
  | [] => ([], none)
  | e :: rest =>
    match check_one e with
    | .error _ => ([], some e.ws)
    | .ok _ =>
      let r := check_health rest
      (e.ws :: r.1, r.2)

/-- Fate of the watchdog task over a sequence of ticks
(`watchdog_loop`, lines 416-422): the loop body `await
manager.check_health()` is not wrapped in any `try`, so a tick whose
exception escapes terminates the task. -/
inductive LoopFate
  | running
  | terminated (atWorkspace : String)
deriving DecidableEq, Repr

def watchdog_loop : List (List WsTick) → LoopFate
  | [] => .running
  | tick :: rest =>
    match (check_health tick).2 with
    | some w => .terminated w
    | none => watchdog_loop rest

/-! ### Crash-restart timing (`check_health`, lines 360-383)

The crash branch of `check_health` for one workspace, as a trace of
actions with a clock: only `sleep` advances time.  The action times
are therefore lower bounds on the real wall clock. -/

inductive WAction
  | fetchConfig (ws : String)
  | stopWs (ws : String)
  | sleep (secs : Nat)
  | startWs (ws : String)
deriving DecidableEq, Repr

/-- Trace of the crash branch (lines 362-383): fetch the authoritative
config from the registry (line 369), clean up dead handles (line 372),
cool down 5 s when uptime was under 5 s (lines 374-376), restart from
the fetched config when it exists (lines 379-380). -/
def handle_crashed (ws : String) (now startTime : Nat)
    (dbConfig : Option WorkspaceConfig) : List WAction :=
  let uptime := now - startTime
  [WAction.fetchConfig ws, WAction.stopWs ws]
    ++ (if uptime < 5 then [WAction.sleep 5] else [])
    ++ (match dbConfig with
        | some _ => [WAction.startWs ws]
        | none => [])

/-- Pair each action of a trace with the clock value at which it runs,
starting at `now`; `sleep s` advances the clock by `s`. -/
def trace_times (now : Nat) : List WAction → List (Nat × WAction)
  | [] => []
  | a :: rest =>
    (now, a) ::
      trace_times (now + match a with | .sleep s => s | _ => 0) rest

/-! ### Log relay and rotation (`process_manager.py` lines 169-188 and
262-296)

The per-workspace lock serializes every relay write (`_log_relay`
lines 176-187) with the rotation swap (`rotate_logs` lines 281-293),
so an execution is an interleaving of atomic events: a whole-line
write to the currently active handle, or a rotation that opens the new
path, swaps the active reference and closes the old handle.  The
worker process itself is untouched by rotation (`procAlive` is carried
through unchanged). -/

inductive LogEvent
  | write (line : String)
  | rotate (path : String)
deriving DecidableEq, Repr

structure LogState where
  activePath : String
  files : List (String × List String)
  procAlive : Bool
deriving DecidableEq, Repr

/-- Append one line to the file at `path` (opened with mode `a`; a
missing entry is created empty first). -/
def append_line (path : String) (line : String)
    (files : List (String × List String)) : List (String × List String) :=
  match alookup path files with
  | some ls => ainsert path (ls ++ [line]) files
  | none => ainsert path [line] files

/-- One lock-protected critical section: a relay write of one decoded
line to the active handle, or a rotation swap (a no-op when the
5-minute bucket path is unchanged, per the guard at line 273). -/
def log_step (s : LogState) : LogEvent → LogState
  | .write line => { s with files := append_line s.activePath line s.files }
  | .rotate p => if p = s.activePath then s else { s with activePath := p }

def log_run (s : LogState) (evs : List LogEvent) : LogState :=
  evs.foldl log_step s

/-- Contents of the log file at `path`. -/
def file_lines (path : String) (s : LogState) : List String :=
  (alookup path s.files).getD []

/-! ### Sequential allocation -/

/-- N sequential `find_available_port` calls, each against the
bind-probe oracle of its own instant, threading `_assigned_ports`
exactly as the module-level set is threaded between calls. -/
def alloc_seq : List (Nat → Bool) → List Nat → Option (List Nat × List Nat)
  | [], assigned => some ([], assigned)
  | f :: fs, assigned =>
    match find_available_port f assigned START_PORT_RANGE with
    | none => none
    | some (p, assigned') =>
      match alloc_seq fs assigned' with
      | none => none
      | some (ps, assigned'') => some (p :: ps, assigned'')

/-! ## Theorems -/

theorem alookup_aerase_self {α : Type} (k : String) (l : List (String × α)) :
    alookup k (aerase k l) = none := by
  induction l with
  | nil => rfl
  | cons p rest ih =>
    by_cases h : p.1 = k
    · simpa [aerase, h] using ih
    · simpa [aerase, alookup, h] using ih

theorem alookup_ainsert_self {α : Type} (k : String) (v : α) (l : List (String × α)) :
    alookup k (ainsert k v l) = some v := by
  simp [ainsert, alookup]

theorem aerase_of_alookup_none {α : Type} (k : String) (l : List (String × α))
    (h : alookup k l = none) : aerase k l = l := by
  induction l with
  | nil => rfl
  | cons p rest ih =>
    by_cases hk : p.1 = k
    · simp [alookup, hk] at h
    · have h' : alookup k rest = none := by simpa [alookup, hk] using h
      simp [aerase, hk, ih h']

theorem findPortLoop_spec (free : Nat → Bool) (assigned : List Nat) :
    ∀ fuel port q a', findPortLoop free assigned port fuel = some (q, a') →
      a' = q :: assigned ∧ q ∉ assigned ∧ free q = true := by
  intro fuel
  induction fuel with
  | zero => intro port q a' h; simp [findPortLoop] at h
  | succ n ih =>
    intro port q a' h
    by_cases hc : (!(assigned.contains port) && is_port_free free port) = true
    · rw [findPortLoop, if_pos hc] at h
      simp only [Option.some.injEq, Prod.mk.injEq] at h
      obtain ⟨hq, ha⟩ := h
      subst hq
      subst ha
      simp only [Bool.and_eq_true, Bool.not_eq_true', is_port_free] at hc
      refine ⟨rfl, ?_, hc.2⟩
      intro hmem
      have : assigned.contains port = true := List.elem_eq_true_of_mem hmem
      rw [this] at hc
      exact Bool.noConfusion hc.1
    · rw [findPortLoop, if_neg hc] at h
      exact ih (port + 1) q a' h

theorem find_available_port_spec (free : Nat → Bool) (assigned : List Nat)
    (start_port q : Nat) (a' : List Nat)
    (h : find_available_port free assigned start_port = some (q, a')) :
    a' = q :: assigned ∧ q ∉ assigned ∧ free q = true :=
  findPortLoop_spec free assigned _ _ q a' h

theorem alookup_aerase_ne {α : Type} (k k' : String) (l : List (String × α))
    (h : k ≠ k') : alookup k' (aerase k l) = alookup k' l := by
  induction l with
  | nil => rfl
  | cons p rest ih =>
    obtain ⟨a, b⟩ := p
    by_cases hk : a = k
    · have hk'' : ¬ a = k' := by rw [hk]; exact h
      simp [aerase, alookup, hk, hk'', ih, h]
    · by_cases hk' : a = k'
      · simp [aerase, alookup, hk, hk', Ne.symm h]
      · simp [aerase, alookup, hk, hk', ih]

theorem alookup_ainsert {α : Type} (k k' : String) (v : α) (l : List (String × α)) :
    alookup k' (ainsert k v l) = if k = k' then some v else alookup k' l := by
  by_cases h : k = k'
  · simp [ainsert, alookup, h]
  · simp [ainsert, alookup, h, alookup_aerase_ne k k' l h]

theorem alloc_seq_spec :
    ∀ (fs : List (Nat → Bool)) (a ps a' : List Nat),
      alloc_seq fs a = some (ps, a') →
      a' = ps.reverse ++ a ∧ ps.Nodup ∧ (∀ p ∈ ps, p ∉ a) ∧
      List.Forall₂ (fun f p => f p = true) fs ps := by
  intro fs
  induction fs with
  | nil =>
    intro a ps a' h
    simp only [alloc_seq, Option.some.injEq, Prod.mk.injEq] at h
    obtain ⟨h1, h2⟩ := h
    subst h1; subst h2
    simp
  | cons f fs ih =>
    intro a ps a' h
    rw [alloc_seq] at h
    cases hfind : find_available_port f a START_PORT_RANGE with
    | none => simp [hfind] at h
    | some pa =>
      obtain ⟨p, a1⟩ := pa
      simp only [hfind] at h
      obtain ⟨ha1, hpa, hfp⟩ := find_available_port_spec f a _ p a1 hfind
      cases hrec : alloc_seq fs a1 with
      | none => simp [hrec] at h
      | some psa =>
        obtain ⟨ps', a''⟩ := psa
        simp only [hrec, Option.some.injEq, Prod.mk.injEq] at h
        obtain ⟨hps, ha'⟩ := h
        subst hps; subst ha'
        obtain ⟨ih1, ih2, ih3, ih4⟩ := ih a1 ps' a'' hrec
        subst ha1
        refine ⟨?_, ?_, ?_, ?_⟩
        · rw [ih1]; simp
        · refine List.nodup_cons.mpr ⟨?_, ih2⟩
          intro hmem
          exact (ih3 p hmem) (List.mem_cons_self p a)
        · intro q hq
          rcases List.mem_cons.mp hq with hq | hq
          · subst hq; exact hpa
          · intro hqa
            exact (ih3 q hq) (List.mem_cons_of_mem p hqa)
        · exact List.Forall₂.cons hfp ih4

/-- Claim C3: N sequential `find_available_port` calls, each probing
with the oracle of its own instant, return pairwise-distinct ports;
each returned port was bindable at the instant it was returned
(its oracle answers `true`), and each is in the reserved set
(`_assigned_ports`) that the call hands back — so no two starts in one
run can be handed the same port. -/
theorem sequential_allocation_distinct (oracles : List (Nat → Bool))
    (ports final : List Nat)
    (h : alloc_seq oracles [] = some (ports, final)) :
    ports.Nodup ∧
    List.Forall₂ (fun f p => f p = true) oracles ports ∧
    (∀ p ∈ ports, p ∈ final) := by
  obtain ⟨hfin, hnd, _, hf2⟩ := alloc_seq_spec oracles [] ports final h
  refine ⟨hnd, hf2, ?_⟩
  intro p hp
  subst hfin
  simp [hp]

/-- Witness for C3 at three all-free-oracle calls. -/
theorem sequential_allocation_distinct_witness :
    ([9000, 9001, 9002] : List Nat).Nodup ∧
    List.Forall₂ (fun f p => f p = true)
      [fun _ => true, fun _ => true, fun _ => true]
      ([9000, 9001, 9002] : List Nat) ∧
    (∀ p ∈ ([9000, 9001, 9002] : List Nat),
      p ∈ ([9002, 9001, 9000] : List Nat)) :=
  sequential_allocation_distinct
    [fun _ => true, fun _ => true, fun _ => true]
    [9000, 9001, 9002] [9002, 9001, 9000] (by decide)

/-- Claim C4: when the Watchdog finds a workspace crashed, the trace
of its crash branch fetches the authoritative registry config first
(before the restart, in both uptime cases), and the replacement start
runs no earlier than 5 s after detection when uptime was under 5 s;
with uptime at least 5 s the restart runs immediately at detection
time. -/
theorem crash_restart_cooldown (ws : String) (now startTime : Nat)
    (cfg : WorkspaceConfig) :
    (handle_crashed ws now startTime (some cfg)).head? =
        some (WAction.fetchConfig ws) ∧
    WAction.startWs ws ∈ handle_crashed ws now startTime (some cfg) ∧
    (now - startTime < 5 →
      ∀ t, (t, WAction.startWs ws) ∈
          trace_times now (handle_crashed ws now startTime (some cfg)) →
        now + 5 ≤ t) ∧
    (5 ≤ now - startTime →
      (now, WAction.startWs ws) ∈
        trace_times now (handle_crashed ws now startTime (some cfg))) := by
  by_cases h5 : now - startTime < 5
  · refine ⟨?_, ?_, ?_, ?_⟩
    · simp [handle_crashed, h5]
    · simp [handle_crashed, h5]
    · intro _ t ht
      simp [handle_crashed, h5, trace_times] at ht
      omega
    · intro habs
      omega
  · refine ⟨?_, ?_, ?_, ?_⟩
    · simp [handle_crashed, h5]
    · simp [handle_crashed, h5]
    · intro habs
      omega
    · intro _
      simp [handle_crashed, h5, trace_times]

/-- Witness for C4 at a crash 2 s after start. -/
theorem crash_restart_cooldown_witness :
    (100 : Nat) - 98 < 5 ∧
    ∀ t, (t, WAction.startWs "w") ∈
        trace_times 100 (handle_crashed "w" 100 98 (some ⟨"w", "k", 9000⟩)) →
      100 + 5 ≤ t :=
  ⟨by decide,
   (crash_restart_cooldown "w" 100 98 ⟨"w", "k", 9000⟩).2.2.1 (by decide)⟩

theorem file_lines_append_line (path line p : String)
    (files : List (String × List String)) :
    (alookup p (append_line path line files)).getD [] =
      if path = p then (alookup p files).getD [] ++ [line]
      else (alookup p files).getD [] := by
  by_cases hp : path = p
  · subst hp
    cases hf : alookup path files with
    | none => simp [append_line, hf, alookup_ainsert_self]
    | some ls => simp [append_line, hf, alookup_ainsert_self]
  · cases hf : alookup path files with
    | none => simp [append_line, hf, alookup_ainsert, hp]
    | some ls => simp [append_line, hf, alookup_ainsert, hp]

theorem log_run_writes (lines : List String) :
    ∀ s : LogState,
      (log_run s (lines.map LogEvent.write)).activePath = s.activePath ∧
      (log_run s (lines.map LogEvent.write)).procAlive = s.procAlive ∧
      ∀ p, file_lines p (log_run s (lines.map LogEvent.write)) =
        if p = s.activePath then file_lines p s ++ lines
        else file_lines p s := by
  induction lines with
  | nil =>
    intro s
    refine ⟨rfl, rfl, ?_⟩
    intro p
    by_cases hp : p = s.activePath <;> simp [log_run, file_lines, hp]
  | cons l rest ih =>
    intro s
    have hstep : log_run s ((l :: rest).map LogEvent.write) =
        log_run (log_step s (LogEvent.write l)) (rest.map LogEvent.write) := by
      simp [log_run]
    obtain ⟨ih1, ih2, ih3⟩ := ih (log_step s (LogEvent.write l))
    rw [hstep]
    have hap : (log_step s (LogEvent.write l)).activePath = s.activePath := rfl
    have hal : (log_step s (LogEvent.write l)).procAlive = s.procAlive := rfl
    refine ⟨by rw [ih1, hap], by rw [ih2, hal], ?_⟩
    intro p
    rw [ih3 p, hap]
    by_cases hp : p = s.activePath
    · rw [if_pos hp, if_pos hp]
      have hw : file_lines p (log_step s (LogEvent.write l)) =
          file_lines p s ++ [l] := by
        have := file_lines_append_line s.activePath l p s.files
        rw [if_pos hp.symm] at this
        simpa [log_step, file_lines] using this
      rw [hw]
      simp
    · rw [if_neg hp, if_neg hp]
      have hw : file_lines p (log_step s (LogEvent.write l)) = file_lines p s := by
        have := file_lines_append_line s.activePath l p s.files
        rw [if_neg (fun hh => hp hh.symm)] at this
        simpa [log_step, file_lines] using this
      rw [hw]

/-- Claim C9: N log lines whose writes straddle one rotation boundary
all appear, in order, across the old and the new log file combined:
the first k lines in the old file, the rest in the new file, none
duplicated, none lost, each line intact as one unit (every relay write
and the rotation swap are whole lock-protected critical sections), and
the worker process is untouched by the rotation. -/
theorem rotation_preserves_lines (lines : List String) (k : Nat)
    (p0 p1 : String) (alive : Bool) (hne : p1 ≠ p0) :
    file_lines p0 (log_run ⟨p0, [], alive⟩
        ((lines.take k).map LogEvent.write ++ [LogEvent.rotate p1]
          ++ (lines.drop k).map LogEvent.write)) = lines.take k ∧
    file_lines p1 (log_run ⟨p0, [], alive⟩
        ((lines.take k).map LogEvent.write ++ [LogEvent.rotate p1]
          ++ (lines.drop k).map LogEvent.write)) = lines.drop k ∧
    file_lines p0 (log_run ⟨p0, [], alive⟩
        ((lines.take k).map LogEvent.write ++ [LogEvent.rotate p1]
          ++ (lines.drop k).map LogEvent.write)) ++
      file_lines p1 (log_run ⟨p0, [], alive⟩
        ((lines.take k).map LogEvent.write ++ [LogEvent.rotate p1]
          ++ (lines.drop k).map LogEvent.write)) = lines ∧
    (log_run ⟨p0, [], alive⟩
        ((lines.take k).map LogEvent.write ++ [LogEvent.rotate p1]
          ++ (lines.drop k).map LogEvent.write)).procAlive = alive := by
  have hsplit :
      log_run ⟨p0, [], alive⟩
        ((lines.take k).map LogEvent.write ++ [LogEvent.rotate p1]
          ++ (lines.drop k).map LogEvent.write) =
      log_run
        (log_step (log_run ⟨p0, [], alive⟩ ((lines.take k).map LogEvent.write))
          (LogEvent.rotate p1))
        ((lines.drop k).map LogEvent.write) := by
    simp [log_run, List.foldl_append]
  obtain ⟨h1a, h1l, h1f⟩ := log_run_writes (lines.take k) ⟨p0, [], alive⟩
  set s1 := log_run ⟨p0, [], alive⟩ ((lines.take k).map LogEvent.write) with hs1
  have hrot : log_step s1 (LogEvent.rotate p1) = { s1 with activePath := p1 } := by
    have : ¬ p1 = s1.activePath := by rw [h1a]; exact hne
    simp [log_step, this]
  obtain ⟨h3a, h3l, h3f⟩ :=
    log_run_writes (lines.drop k) ({ s1 with activePath := p1 })
  have hf0s1 : file_lines p0 s1 = lines.take k := by
    have := h1f p0
    simpa [file_lines] using this
  have hf1s1 : file_lines p1 s1 = [] := by
    have := h1f p1
    rw [if_neg (by simpa using hne)] at this
    simpa [file_lines] using this
  have hfiles : ∀ p, file_lines p ({ s1 with activePath := p1 }) = file_lines p s1 := by
    intro p; rfl
  have hf0 : file_lines p0 (log_run ({ s1 with activePath := p1 })
      ((lines.drop k).map LogEvent.write)) = lines.take k := by
    have := h3f p0
    rw [if_neg (by simpa using Ne.symm hne)] at this
    rw [this, hfiles, hf0s1]
  have hf1 : file_lines p1 (log_run ({ s1 with activePath := p1 })
      ((lines.drop k).map LogEvent.write)) = lines.drop k := by
    have := h3f p1
    rw [if_pos (by simp)] at this
    rw [this, hfiles, hf1s1]
    simp
  rw [hsplit, hrot]
  refine ⟨hf0, hf1, ?_, ?_⟩
  · rw [hf0, hf1]
    exact List.take_append_drop k lines
  · rw [h3l]
    simpa using h1l

/-- Witness for C9: lines a, b, c with the rotation after the first
two writes. -/
theorem rotation_preserves_lines_witness :
    ("new" : String) ≠ "old" ∧
    file_lines "old" (log_run ⟨"old", [], true⟩
        (((["a", "b", "c"] : List String).take 2).map LogEvent.write
          ++ [LogEvent.rotate "new"]
          ++ ((["a", "b", "c"] : List String).drop 2).map LogEvent.write))
      = (["a", "b", "c"] : List String).take 2 :=
  ⟨by decide,
   (rotation_preserves_lines ["a", "b", "c"] 2 "old" "new" true (by decide)).1⟩

theorem wait_for_health_ok_ready (polls : Nat → ProbeOutcome) (timeout : Nat) :
    ∀ n i t j, timeout + 1 - t ≤ n →
      wait_for_health polls timeout i t = .ok j →
      counts_as_ready (polls j) = true := by
  intro n
  induction n with
  | zero =>
    intro i t j hn h
    rw [wait_for_health] at h
    by_cases hr : counts_as_ready (polls i) = true
    · rw [if_pos hr] at h
      cases h
      exact hr
    · rw [if_neg hr, if_pos (by omega)] at h
      cases h
  | succ n ih =>
    intro i t j hn h
    rw [wait_for_health] at h
    by_cases hr : counts_as_ready (polls i) = true
    · rw [if_pos hr] at h
      cases h
      exact hr
    · rw [if_neg hr] at h
      by_cases ht : timeout < t
      · rw [if_pos ht] at h
        cases h
      · rw [if_neg ht] at h
        exact ih (i + 1) (t + 200) j (by omega) h

theorem wait_for_health_refused_times_out (polls : Nat → ProbeOutcome)
    (timeout : Nat) (hall : ∀ i, polls i = .connError) :
    ∀ n i t, timeout + 1 - t ≤ n →
      wait_for_health polls timeout i t = .error () := by
  intro n
  induction n with
  | zero =>
    intro i t hn
    rw [wait_for_health, hall i]
    simp only [counts_as_ready]
    rw [if_neg (by simp), if_pos (by omega)]
  | succ n ih =>
    intro i t hn
    rw [wait_for_health, hall i]
    simp only [counts_as_ready]
    rw [if_neg (by simp)]
    by_cases ht : timeout < t
    · rw [if_pos ht]
    · rw [if_neg ht]
      exact ih (i + 1) (t + 200) (by omega)

/-- Claim C5: with `was_started_just_now` set, the gateway forwards
only after some poll of the root-path probe loop got an answer from
the worker (an HTTP response of any status, or any non-connect
failure, counts as ready); a connection refusal on every poll makes
`wait_for_health` raise past the 15 s budget and the gateway answers
504 without attempting the proxy; a plain HTTP response on the first
poll (any status, error bodies included) forwards immediately. -/
theorem readiness_gate (polls : Nat → ProbeOutcome) (port : Nat) :
    ((∀ i, polls i = .connError) →
      gateway_readiness true polls port = .httpError 504) ∧
    (∀ q, gateway_readiness true polls port = .forward q →
      ∃ j, counts_as_ready (polls j) = true) ∧
    (∀ s, polls 0 = .response s →
      gateway_readiness true polls port = .forward port) := by
  refine ⟨?_, ?_, ?_⟩
  · intro hall
    have := wait_for_health_refused_times_out polls 15000 hall 15001 0 0 (by omega)
    simp [gateway_readiness, this]
  · intro q hq
    rw [gateway_readiness, if_pos rfl] at hq
    cases hwait : wait_for_health polls 15000 0 0 with
    | ok j =>
      exact ⟨j, wait_for_health_ok_ready polls 15000 15001 0 0 j (by omega) hwait⟩
    | error u =>
      rw [hwait] at hq
      cases hq
  · intro s hs
    have : wait_for_health polls 15000 0 0 = .ok 0 := by
      rw [wait_for_health, hs]
      simp [counts_as_ready]
    simp [gateway_readiness, this]

/-- Witness for C5: a probe refused on every poll yields 504. -/
theorem readiness_gate_witness :
    gateway_readiness true (fun _ => ProbeOutcome.connError) 9000 =
      .httpError 504 :=
  (readiness_gate (fun _ => ProbeOutcome.connError) 9000).1 (fun _ => rfl)

/-- Claim C7: after routing, a downstream `ConnectError` yields 502,
a downstream timeout — in particular any exchange exceeding the fixed
60 s `request_timeout` — yields 504, and every other exception yields
500 whose detail is built only from the exception message; the
response is independent of the tenant credential in scope. -/
theorem proxy_failure_taxonomy (ws : String) (key : Option String) :
    (gateway_proxy ws key .connectError).status = 502 ∧
    (gateway_proxy ws key .timeoutExc).status = 504 ∧
    (∀ m, (gateway_proxy ws key (.otherExc m)).status = 500 ∧
      (gateway_proxy ws key (.otherExc m)).detail = "Gateway Error: " ++ m) ∧
    (∀ duration other app, request_timeout < duration →
      (gateway_proxy ws key (downstream_result false duration other app)).status
        = 504) ∧
    (∀ duration other app,
      (gateway_proxy ws key (downstream_result true duration other app)).status
        = 502) ∧
    (∀ k' r, gateway_proxy ws key r = gateway_proxy ws k' r) := by
  refine ⟨rfl, rfl, fun m => ⟨rfl, rfl⟩, ?_, ?_, ?_⟩
  · intro duration other app hd
    simp [downstream_result, gateway_proxy, hd]
  · intro duration other app
    simp [downstream_result, gateway_proxy]
  · intro k' r
    cases r <;> rfl

/-- Witness for C7: a 61 s exchange with the credential in scope is a
504. -/
theorem proxy_failure_taxonomy_witness :
    request_timeout < 61 ∧
    (gateway_proxy "w" (some "secret")
      (downstream_result false 61 none 200)).status = 504 :=
  ⟨by decide,
   (proxy_failure_taxonomy "w" (some "secret")).2.2.2.1 61 none 200 (by decide)⟩

/-- Claim C2 (code bug): the claim — and the spec — require every
exception inside a Watchdog tick to be caught per iteration with the
loop never terminating, but `watchdog_loop` does not guard
`check_health`, and the crash branch calls `get_workspace_by_name`
outside any `try`.  Evaluating the embedded control flow at a tick
whose first workspace has crashed and whose registry fetch raises: the
exception escapes, the second workspace is not processed, and the
watchdog task terminates. -/
theorem watchdog_tick_exception_terminates_loop :
    check_health
      [⟨"a", some 1, .error (), true, 10, .ok 200, .ok ()⟩,
       ⟨"b", none, .ok none, true, 100, .ok 200, .ok ()⟩]
      = ([], some "a") ∧
    watchdog_loop
      [[⟨"a", some 1, .error (), true, 10, .ok 200, .ok ()⟩,
        ⟨"b", none, .ok none, true, 100, .ok 200, .ok ()⟩]]
      = .terminated "a" ∧
    check_one ⟨"b", none, .ok none, true, 100, .ok 200, .ok ()⟩ = .ok () := by
  refine ⟨rfl, rfl, rfl⟩

/-- Claim C1 (amended): a start whose configured port is bindable on
loopback and not yet in the process-wide reserved set reuses the
configured port, reserving it and spawning the worker on it; when the
configured port is reserved or unbindable the start scans upward from
the base port 9000 and spawns on the port the scan reserves. -/
theorem start_port_resolution (env : StartEnv) (registry : List WorkspaceConfig)
    (st : ManagerState) (config : WorkspaceConfig)
    (hnr : proc_running st config.workspace = false) :
    (config.port ∉ st.assignedPorts → env.free config.port = true →
      (start_process env registry st config).outcome = .spawned config.port ∧
      config.port ∈ (start_process env registry st config).state.assignedPorts ∧
      alookup config.workspace
          (start_process env registry st config).state.processes
        = some ⟨env.newPid, none⟩) ∧
    ((config.port ∈ st.assignedPorts ∨ env.free config.port = false) →
      ∀ q a', find_available_port env.free st.assignedPorts START_PORT_RANGE
          = some (q, a') →
        (start_process env registry st config).outcome = .spawned q) := by
  constructor
  · intro hmem hfree
    have hcond : (!(st.assignedPorts.contains config.port)
        && is_port_free env.free config.port) = true := by
      simp [is_port_free, hfree, hmem]
    have hres : resolve_port env.free st.assignedPorts config.port
        = some (config.port, config.port :: st.assignedPorts) := by
      rw [resolve_port, if_pos hcond]
    simp only [start_process, hnr, Bool.false_eq_true, if_false, hres]
    simp [alookup_ainsert_self]
  · intro hbusy q a' hfind
    have hcondF : (!(st.assignedPorts.contains config.port)
        && is_port_free env.free config.port) = false := by
      rcases hbusy with h | h
      · have hc : st.assignedPorts.contains config.port = true :=
          List.elem_eq_true_of_mem h
        rw [hc]
        rfl
      · rw [show is_port_free env.free config.port = false from h]
        exact Bool.and_false _
    have hres : resolve_port env.free st.assignedPorts config.port
        = some (q, a') := by
      rw [resolve_port, if_neg (by rw [hcondF]; simp)]
      exact hfind
    simp only [start_process, hnr, Bool.false_eq_true, if_false, hres]

/-- Witness for C1 (amended): a first start on a fresh control plane
reuses the configured, bindable port 9000. -/
theorem start_port_resolution_witness :
    (start_process ⟨fun _ => true, 5, 2, 3, "lp"⟩ []
        ⟨[], [], [], [], [], [], [], []⟩ ⟨"w", "k", 9000⟩).outcome
      = .spawned 9000 :=
  ((start_port_resolution ⟨fun _ => true, 5, 2, 3, "lp"⟩ []
      ⟨[], [], [], [], [], [], [], []⟩ ⟨"w", "k", 9000⟩ rfl).1
    (by decide) rfl).1

/-- Claim C1 counterexample: with every port bindable on loopback, the
first start of workspace w spawns on its configured port 9000; after a
`stop_process` of w (which never releases 9000 from the reserved set)
the next start of the same config finds 9000 reserved and spawns on
9001 instead of reusing the still-bindable configured port — refuting
the claim for starts that follow a stop or crash-restart in the same
run. -/
theorem restart_scans_despite_free_port :
    (start_process ⟨fun _ => true, 50, 0, 9, "log0"⟩ [⟨"w", "k", 9000⟩]
        ⟨[], [], [], [], [], [], [], []⟩ ⟨"w", "k", 9000⟩).outcome
      = .spawned 9000 ∧
    ((fun _ : Nat => true) 9000 = true) ∧
    (start_process ⟨fun _ => true, 100, 1, 10, "log1"⟩ [⟨"w", "k", 9000⟩]
        (stop_process
          (start_process ⟨fun _ => true, 50, 0, 9, "log0"⟩ [⟨"w", "k", 9000⟩]
            ⟨[], [], [], [], [], [], [], []⟩ ⟨"w", "k", 9000⟩).state
          "w")
        ⟨"w", "k", 9000⟩).outcome = .spawned 9001 ∧
    (9001 : Nat) ≠ 9000 := by
  refine ⟨rfl, rfl, rfl, by decide⟩

/-- Claim C6: `stop_process` on a workspace with no entry in the
process map is a no-op leaving the whole supervisor state unchanged;
on a workspace with an entry it removes the workspace from all six
runtime maps and closes its active log handle, and a second
`stop_process` is again a no-op. -/
theorem stop_process_idempotent (st : ManagerState) (w : String) :
    (alookup w st.processes = none → stop_process st w = st) ∧
    (∀ h0, alookup w st.processes = some h0 →
      alookup w (stop_process st w).processes = none ∧
      alookup w (stop_process st w).configs = none ∧
      alookup w (stop_process st w).start_times = none ∧
      alookup w (stop_process st w).log_files = none ∧
      alookup w (stop_process st w).log_locks = none ∧
      alookup w (stop_process st w).log_paths = none ∧
      (∀ hdl, alookup w st.log_files = some hdl →
        hdl ∈ (stop_process st w).closedHandles) ∧
      stop_process (stop_process st w) w = stop_process st w) := by
  constructor
  · intro hnone
    simp [stop_process, hnone]
  · intro h0 hsome
    have hpos : (alookup w st.processes).isSome = true := by
      rw [hsome]; rfl
    cases hlf : alookup w st.log_files with
    | some hdl =>
      have hstop : stop_process st w =
          { st with
            processes := aerase w st.processes
            closedHandles := hdl :: st.closedHandles
            log_files := aerase w st.log_files
            log_locks := aerase w st.log_locks
            log_paths := aerase w st.log_paths
            configs := aerase w st.configs
            start_times := aerase w st.start_times } := by
        simp [stop_process, hpos, hlf]
      rw [hstop]
      refine ⟨alookup_aerase_self _ _, alookup_aerase_self _ _,
        alookup_aerase_self _ _, alookup_aerase_self _ _,
        alookup_aerase_self _ _, alookup_aerase_self _ _, ?_, ?_⟩
      · intro hdl' hh
        have heq : hdl = hdl' := Option.some.inj hh
        subst heq
        exact List.mem_cons_self _ _
      · simp [stop_process, alookup_aerase_self]
    | none =>
      have hstop : stop_process st w =
          { st with
            processes := aerase w st.processes
            log_locks := aerase w st.log_locks
            log_paths := aerase w st.log_paths
            configs := aerase w st.configs
            start_times := aerase w st.start_times } := by
        simp [stop_process, hpos, hlf]
      rw [hstop]
      refine ⟨alookup_aerase_self _ _, alookup_aerase_self _ _,
        alookup_aerase_self _ _, ?_, alookup_aerase_self _ _,
        alookup_aerase_self _ _, ?_, ?_⟩
      · exact hlf
      · intro hdl' hh
        exact Option.noConfusion hh
      · simp [stop_process, alookup_aerase_self]

/-- Witness for C6 at a one-workspace state. -/
theorem stop_process_idempotent_witness :
    alookup "w"
      (stop_process
        ⟨[("w", ⟨4, none⟩)], [("w", ⟨"w", "k", 9000⟩)], [("w", 50)],
         [("w", 17)], [("w", ())], [("w", "lp")], [9000], []⟩ "w").processes
      = none ∧
    (17 : Nat) ∈
      (stop_process
        ⟨[("w", ⟨4, none⟩)], [("w", ⟨"w", "k", 9000⟩)], [("w", 50)],
         [("w", 17)], [("w", ())], [("w", "lp")], [9000], []⟩ "w").closedHandles := by
  have h := (stop_process_idempotent
    ⟨[("w", ⟨4, none⟩)], [("w", ⟨"w", "k", 9000⟩)], [("w", 50)],
     [("w", 17)], [("w", ())], [("w", "lp")], [9000], []⟩ "w").2 ⟨4, none⟩ rfl
  exact ⟨h.1, h.2.2.2.2.2.2.1 17 rfl⟩

/-- Claim C8: in header mode, resolving a name absent from the
in-memory config map and from the registry with auto-create enabled
provisions a brand-new tenant — the freshly generated credential, a
freshly allocated free port, the row persisted to the registry — then
starts its worker and returns a `RoutingResult` with
`was_started_just_now` set; with auto-create disabled the resolve
fails `LookupError`, which the gateway maps to 404. -/
theorem auto_create_resolution (env : ResolveEnv)
    (registry : List WorkspaceConfig) (st : ManagerState) (name : String)
    (p : Nat)
    (hcfg : alookup name st.configs = none)
    (hreg : get_workspace_by_name registry name = none)
    (hvalid : valid_workspace_name name = true)
    (hport : find_free_port env.bindFree registry START_PORT_RANGE = some p)
    (hproc : alookup name st.processes = none)
    (hfresh : p ∉ st.assignedPorts)
    (hfree : env.startEnv.free p = true) :
    (env.autoCreate = true →
      resolve_workspace_no_auth env registry st name =
        .ok (⟨name, p, env.freshKey, true⟩,
             registry ++ [⟨name, env.freshKey, p⟩],
             { st with
               assignedPorts := p :: st.assignedPorts
               processes := ainsert name ⟨env.startEnv.newPid, none⟩ st.processes
               configs := ainsert name ⟨name, env.freshKey, p⟩ st.configs
               start_times := ainsert name env.startEnv.now st.start_times
               log_files :=
                 ainsert name env.startEnv.newLogHandle st.log_files
               log_paths := ainsert name env.startEnv.logPath st.log_paths
               log_locks := ainsert name () st.log_locks }) ∧
      alookup name
          (ainsert name (⟨name, env.freshKey, p⟩ : WorkspaceConfig) st.configs)
        = some ⟨name, env.freshKey, p⟩ ∧
      alookup name
          (ainsert name (⟨env.startEnv.newPid, none⟩ : ProcHandle) st.processes)
        = some ⟨env.startEnv.newPid, none⟩) ∧
    (env.autoCreate = false →
      resolve_workspace_no_auth env registry st name = .error .notFound ∧
      route_error_status_no_auth .notFound = 404) := by
  have hrun : proc_running st name = false := by
    simp [proc_running, hproc]
  have hcreate : create_workspace env.freshKey env.bindFree registry name =
      .ok (⟨name, env.freshKey, p⟩, registry ++ [⟨name, env.freshKey, p⟩]) := by
    simp [create_workspace, hvalid, hport]
  have hcond : (!(st.assignedPorts.contains p)
      && is_port_free env.startEnv.free p) = true := by
    simp [is_port_free, hfree, hfresh]
  have hres : resolve_port env.startEnv.free st.assignedPorts p
      = some (p, p :: st.assignedPorts) := by
    rw [resolve_port, if_pos hcond]
  have hstart : start_process env.startEnv
      (registry ++ [⟨name, env.freshKey, p⟩]) st ⟨name, env.freshKey, p⟩ =
      ⟨registry ++ [⟨name, env.freshKey, p⟩],
       { st with
         assignedPorts := p :: st.assignedPorts
         processes := ainsert name ⟨env.startEnv.newPid, none⟩ st.processes
         configs := ainsert name ⟨name, env.freshKey, p⟩ st.configs
         start_times := ainsert name env.startEnv.now st.start_times
         log_files := ainsert name env.startEnv.newLogHandle st.log_files
         log_paths := ainsert name env.startEnv.logPath st.log_paths
         log_locks := ainsert name () st.log_locks },
       .spawned p⟩ := by
    simp [start_process, hrun, hres]
  constructor
  · intro hac
    refine ⟨?_, alookup_ainsert_self _ _ _, alookup_ainsert_self _ _ _⟩
    simp only [resolve_workspace_no_auth, hcfg, hreg, hac, if_true,
      hcreate, hstart]
    simp [alookup_ainsert_self]
  · intro hac
    refine ⟨?_, rfl⟩
    simp [resolve_workspace_no_auth, hcfg, hreg, hac]

/-- Witness for C8: auto-creating workspace demo on a fresh control
plane yields key K, port 9000, a persisted registry row, and
`was_started_just_now`. -/
theorem auto_create_resolution_witness :
    resolve_workspace_no_auth
        ⟨true, "K", fun _ => true, ⟨fun _ => true, 100, 7, 3, "lp"⟩⟩
        [] ⟨[], [], [], [], [], [], [], []⟩ "demo" =
      .ok (⟨"demo", 9000, "K", true⟩, [⟨"demo", "K", 9000⟩],
           ⟨[("demo", ⟨7, none⟩)], [("demo", ⟨"demo", "K", 9000⟩)],
            [("demo", 100)], [("demo", 3)], [("demo", ())], [("demo", "lp")],
            [9000], []⟩) :=
  ((auto_create_resolution
      ⟨true, "K", fun _ => true, ⟨fun _ => true, 100, 7, 3, "lp"⟩⟩
      [] ⟨[], [], [], [], [], [], [], []⟩ "demo" 9000
      rfl rfl (by decide) rfl rfl (by decide) rfl).1 rfl).1

/-- Claim C10: a resolve whose workspace is in the in-memory config
map returns a `RoutingResult` built from the cached config with
`was_started_just_now = false`, touches neither the registry nor the
manager state (the same answer for every registry value, the state
handed back unchanged), and never inspects the tracked process — the
same holds for any process map, including one whose entry has already
exited; the keyed mode behaves identically on a credential cache
hit. -/
theorem cached_resolve_fast_path (env : ResolveEnv) (st : ManagerState)
    (name : String) (cfg : WorkspaceConfig)
    (h : alookup name st.configs = some cfg) :
    (∀ registry, resolve_workspace_no_auth env registry st name =
      .ok (⟨cfg.workspace, cfg.port, cfg.api_key, false⟩, registry, st)) ∧
    (∀ registry procs,
      resolve_workspace_no_auth env registry
          { st with processes := procs } name =
        .ok (⟨cfg.workspace, cfg.port, cfg.api_key, false⟩, registry,
             { st with processes := procs })) ∧
    (∀ registry key pr,
      st.configs.find? (fun q => q.2.api_key == key) = some pr →
      resolve_workspace_with_auth env registry st key =
        .ok (⟨pr.2.workspace, pr.2.port, pr.2.api_key, false⟩, registry, st)) := by
  refine ⟨?_, ?_, ?_⟩
  · intro registry
    simp [resolve_workspace_no_auth, h]
  · intro registry procs
    have h' : alookup name ({ st with processes := procs }).configs = some cfg := h
    simp [resolve_workspace_no_auth, h']
  · intro registry key pr hf
    simp [resolve_workspace_with_auth, hf]

/-- Witness for C10: a cache hit on a state whose tracked process has
already exited (`poll` returned 1) leaves everything untouched. -/
theorem cached_resolve_fast_path_witness :
    resolve_workspace_no_auth
        ⟨false, "", fun _ => false, ⟨fun _ => false, 0, 0, 0, ""⟩⟩
        []
        ⟨[("w", ⟨1, some 1⟩)], [("w", ⟨"w", "k", 9000⟩)],
         [], [], [], [], [], []⟩ "w" =
      .ok (⟨"w", 9000, "k", false⟩, [],
           ⟨[("w", ⟨1, some 1⟩)], [("w", ⟨"w", "k", 9000⟩)],
            [], [], [], [], [], []⟩) :=
  (cached_resolve_fast_path
    ⟨false, "", fun _ => false, ⟨fun _ => false, 0, 0, 0, ""⟩⟩
    ⟨[("w", ⟨1, some 1⟩)], [("w", ⟨"w", "k", 9000⟩)],
     [], [], [], [], [], []⟩ "w" ⟨"w", "k", 9000⟩ rfl).1 []

end LightRAG
